import Mathlib

/-!
Verification development for the chiller plant analyzer
(`chiller_analyzer_pro.py`).

The computational core of the program is shallowly embedded below:

* the per-chiller efficiency metrics (SI and I-P branches, source
  lines 27-42), rounding to two decimals included;
* the cooling-tower metrics (lines 63-65);
* the threshold-based recommendation for chillers (lines 70-74);
* the simulated 24-hour load profile (lines 86-91), over `ℝ` because it
  uses the exponential function;
* the greedy sequencing loop (lines 106-119);
* the COP-vs-load derating curve (lines 128-129);
* the full recomputation pass wiring these together (lines 22-119).

Batteries marks the rational arithmetic operations irreducible, which
blocks `decide` on concrete rational computations; they are reset to
their ordinary reducibility below so that concrete runs of the embedded
program can be evaluated.

Exact rational or real arithmetic stands in for Python floats; `round2`
models Python's `round(x, 2)` (ties, which no statement below touches,
are rounded up here while Python rounds them to even).  The numeric
definitions are polymorphic over a linear ordered field so that concrete
claims can be settled computably over `ℚ` while the load profile and the
full pass live over `ℝ`.
-/

set_option allowUnsafeReducibility true
attribute [semireducible] Rat.inv Rat.mul Rat.add Rat.sub Rat.ofScientific

/-- Rounding to two decimal places, modelling Python's `round(x, 2)`. -/
def round2 {α : Type} [LinearOrderedField α] [FloorRing α] (x : α) : α :=
  (round (x * 100) : ℤ) / 100

/-- The sidebar unit-system selector: `"SI"` or `"I-P"` (source line 16). -/
inductive UnitSystem : Type
  | SI : UnitSystem
  | IP : UnitSystem
deriving DecidableEq

/-- Raw per-chiller inputs: name, cooling capacity, power input
(source lines 24-26). -/
structure ChillerInput (α : Type) : Type where
  name : String
  cap : α
  power : α
deriving DecidableEq

/-- One entry of `chiller_data` (source lines 35-42): inputs plus the
derived metrics, the metrics stored after rounding to two decimals. -/
structure ChillerData (α : Type) : Type where
  name : String
  capacity : α
  power : α
  cop : α
  eer : α
  kwPerTon : α
deriving DecidableEq

/-- The unrounded COP of the unit-system branch (source lines 27-34). -/
def copRaw {α : Type} [LinearOrderedField α] (u : UnitSystem) (cap power : α) : α :=
  match u with
  | .IP => ((cap * 12000) / (power * 1000)) / 3.412
  | .SI => cap / power

/-- The unrounded EER of the unit-system branch (source lines 27-34). -/
def eerRaw {α : Type} [LinearOrderedField α] (u : UnitSystem) (cap power : α) : α :=
  match u with
  | .IP => (cap * 12000) / (power * 1000)
  | .SI => (cap / power) * 3.412

/-- The unrounded kW/Ton of the unit-system branch (source lines 27-34). -/
def kwPerTonRaw {α : Type} [LinearOrderedField α] (u : UnitSystem) (cap power : α) : α :=
  match u with
  | .IP => power / cap
  | .SI => 3.5 / (cap / power)

/-- Building one `chiller_data` entry from the inputs (source lines 27-42):
the three derived metrics are computed by the selected branch and stored
rounded to two decimals. -/
def mkChillerData {α : Type} [LinearOrderedField α] [FloorRing α]
    (u : UnitSystem) (i : ChillerInput α) : ChillerData α :=
  { name := i.name
    capacity := i.cap
    power := i.power
    cop := round2 (copRaw u i.cap i.power)
    eer := round2 (eerRaw u i.cap i.power)
    kwPerTon := round2 (kwPerTonRaw u i.cap i.power) }

/-- One `(chiller["Name"], load, chiller["COP"])` tuple appended to
`active_chillers` by the sequencing loop (source lines 115, 118). -/
structure Assignment (α : Type) : Type where
  name : String
  assignedKw : α
  cop : α
deriving DecidableEq

/-- The sequencing loop body (source lines 106-119): iterate the chillers
in input order with `remaining_load`; break when the remainder is
nonpositive; assign full capacity when the remainder covers it, otherwise
assign the remainder and continue with remainder `0` (the next iteration
then breaks, as in the source). -/
def allocate {α : Type} [LinearOrderedField α]
    (chillers : List (ChillerData α)) (load : α) : List (Assignment α) :=
  match chillers with
  | [] => []
  | c :: cs =>
    if load ≤ 0 then []
    else if c.capacity ≤ load then
      ⟨c.name, c.capacity, c.cop⟩ :: allocate cs (load - c.capacity)
    else
      ⟨c.name, load, c.cop⟩ :: allocate cs 0

/-- The two possible chiller advisories (source lines 71-74). -/
inductive Advisory : Type
  | maintenance : Advisory
  | efficient : Advisory
deriving DecidableEq

/-- The chiller recommendation rule (source lines 70-74): a maintenance /
load-redistribution warning when the stored COP is below `3.5`, otherwise
the operating-efficiently message. -/
def recommend {α : Type} [LinearOrderedField α] (c : ChillerData α) : Advisory :=
  if c.cop < 3.5 then .maintenance else .efficient

/-- The COP-vs-load derating curve `cop_vals` (source lines 128-129),
computed from the stored COP at load percentages 25, 50, 75, 100. -/
def copCurve {α : Type} [LinearOrderedField α] (c : ChillerData α) : List α :=
  [25, 50, 75, 100].map (fun l => c.cop * (1 - 0.1 * (1 - l / 100)))

/-- Cooling-tower range `CT_range = cw_in - cw_out` (source line 63). -/
def ctRange {α : Type} [LinearOrderedField α] (inlet outlet : α) : α :=
  inlet - outlet

/-- Cooling-tower approach `cw_out - wet_bulb` (source line 64). -/
def ctApproach {α : Type} [LinearOrderedField α] (outlet wetBulb : α) : α :=
  outlet - wetBulb

/-- Cooling-tower effectiveness (source line 65). -/
def effectiveness {α : Type} [LinearOrderedField α] (inlet outlet wetBulb : α) : α :=
  ctRange inlet outlet / (ctRange inlet outlet + ctApproach outlet wetBulb)

/-- The hourly load factor (source line 89): a Gaussian-shaped peak
centred at hour 14. -/
noncomputable def loadFactor (hour : ℕ) : ℝ :=
  0.6 + 0.4 * Real.exp (-(((hour : ℝ) - 14) ^ 2) / 20)

/-- The ambient-temperature factor (source line 90). -/
def tempFactor (ambientTemp : ℝ) : ℝ :=
  1 + (ambientTemp - 30) * 0.02

/-- One simulated demand point (source line 91). -/
noncomputable def demandAt (baseLoad ambientTemp : ℝ) (hour : ℕ) : ℝ :=
  round2 (baseLoad * loadFactor hour * tempFactor ambientTemp)

/-- The simulated 24-hour load profile (source lines 84-91). -/
noncomputable def profile (baseLoad ambientTemp : ℝ) : List ℝ :=
  (List.range 24).map (demandAt baseLoad ambientTemp)

/-- One full recomputation pass (source lines 22-119): compute the
chiller metrics, simulate the profile, and run the sequencing loop once
per hourly load, producing one allocation record per hour. -/
noncomputable def fullPass (u : UnitSystem) (inputs : List (ChillerInput ℝ))
    (baseLoad ambientTemp : ℝ) : List (List (Assignment ℝ)) :=
  let chillers := inputs.map (mkChillerData u)
  (profile baseLoad ambientTemp).map (allocate chillers)

lemma allocate_nonpos {α : Type} [LinearOrderedField α]
    (chillers : List (ChillerData α)) (load : α) (h : load ≤ 0) :
    allocate chillers load = [] := by
  cases chillers with
  | nil => rfl
  | cons c cs => simp [allocate, h]

/-- C1: the sequencing allocator processes the chillers in input order with
`remaining` initialised to the demand: it stops as soon as the remainder is
nonpositive, assigns a chiller's full capacity when the remainder covers it,
and otherwise assigns exactly the remainder (after which nothing more is
assigned).  For two 100 kW chillers, demand 150 yields assignments 100 and 50,
demand 250 yields 100 and 100 with the excess 50 unassigned, and demand 0
yields no assignments. -/
theorem C1_sequencing :
    (∀ (d : ℚ) (c : ChillerData ℚ) (cs : List (ChillerData ℚ)),
        (d ≤ 0 → allocate (c :: cs) d = []) ∧
        (0 < d → c.capacity ≤ d →
          allocate (c :: cs) d =
            ⟨c.name, c.capacity, c.cop⟩ :: allocate cs (d - c.capacity)) ∧
        (0 < d → d < c.capacity → allocate (c :: cs) d = [⟨c.name, d, c.cop⟩])) ∧
    allocate [mkChillerData .SI ⟨"Chiller 1", 100, 60⟩,
        mkChillerData .SI ⟨"Chiller 2", 100, 60⟩] (150 : ℚ) =
      [⟨"Chiller 1", 100, 167 / 100⟩, ⟨"Chiller 2", 50, 167 / 100⟩] ∧
    allocate [mkChillerData .SI ⟨"Chiller 1", 100, 60⟩,
        mkChillerData .SI ⟨"Chiller 2", 100, 60⟩] (250 : ℚ) =
      [⟨"Chiller 1", 100, 167 / 100⟩, ⟨"Chiller 2", 100, 167 / 100⟩] ∧
    allocate [mkChillerData .SI ⟨"Chiller 1", 100, 60⟩,
        mkChillerData .SI ⟨"Chiller 2", 100, 60⟩] (0 : ℚ) = [] := by
  refine ⟨fun d c cs => ⟨fun h => ?_, fun hd hc => ?_, fun hd hc => ?_⟩, ?_, ?_, ?_⟩
  · simp [allocate, h]
  · rw [allocate, if_neg (not_le.mpr hd), if_pos hc]
  · rw [allocate, if_neg (not_le.mpr hd), if_neg (not_le.mpr hc),
      allocate_nonpos cs 0 le_rfl]
  · decide
  · decide
  · decide

/-- Witness for `C1_sequencing`: the full-capacity step instantiated for one
100 kW chiller at demand 150. -/
theorem C1_sequencing_witness :
    ((0 : ℚ) < 150 ∧ (mkChillerData .SI ⟨"Chiller 1", 100, 60⟩ : ChillerData ℚ).capacity ≤ 150) ∧
    allocate [mkChillerData .SI ⟨"Chiller 1", 100, 60⟩] (150 : ℚ) =
      ⟨"Chiller 1", (mkChillerData .SI ⟨"Chiller 1", 100, 60⟩ : ChillerData ℚ).capacity,
        (mkChillerData .SI ⟨"Chiller 1", 100, 60⟩ : ChillerData ℚ).cop⟩ ::
        allocate [] (150 - (mkChillerData .SI ⟨"Chiller 1", 100, 60⟩ : ChillerData ℚ).capacity) :=
  ⟨⟨by decide, by decide⟩,
    (C1_sequencing.1 150 (mkChillerData .SI ⟨"Chiller 1", 100, 60⟩) []).2.1
      (by decide) (by decide)⟩

/-- C3 counterexample: feeding the very same numeric capacity and power
(100 and 60) to the SI branch and the I-P branch yields COPs that differ by
more than 4, far outside any floating-point tolerance: the SI branch gives
5/3 and the I-P branch 5000/853. -/
theorem C3_counterexample :
    copRaw .SI (100 : ℚ) 60 = 5 / 3 ∧
    copRaw .IP (100 : ℚ) 60 = 5000 / 853 ∧
    1 < |copRaw .IP (100 : ℚ) 60 - copRaw .SI (100 : ℚ) 60| := by
  refine ⟨by decide, by decide, by decide⟩

/-- C3 (amended): at identical numeric inputs the I-P-path COP is exactly
`12 / 3.412` (about 3.517) times the SI-path COP; the two paths agree exactly
when the I-P capacity input is the SI capacity rescaled by `3.412 / 12`
(a kW-to-ton conversion under the code's own constants). -/
theorem C3_unit_cop (cap power : ℚ) :
    copRaw .IP cap power = (12 / 3.412) * copRaw .SI cap power ∧
    copRaw .IP (cap * (3.412 / 12)) power = copRaw .SI cap power := by
  constructor
  · show ((cap * 12000) / (power * 1000)) / 3.412 = (12 / 3.412) * (cap / power)
    rcases eq_or_ne power 0 with hp | hp
    · simp [hp]
    · field_simp
      ring
  · show ((cap * (3.412 / 12) * 12000) / (power * 1000)) / 3.412 = cap / power
    rcases eq_or_ne power 0 with hp | hp
    · simp [hp]
    · field_simp
      ring

/-- C6: under SI with positive capacity and power, the stored metrics are the
two-decimal roundings of `cop = capacity / power`, `eer = cop * 3.412` and
`kwPerTon = 3.5 / cop`, and the divisions involved are by nonzero values. -/
theorem C6_si_metrics (nm : String) (cap power : ℚ) (hc : 0 < cap) (hp : 0 < power) :
    (mkChillerData .SI ⟨nm, cap, power⟩).cop = round2 (cap / power) ∧
    (mkChillerData .SI ⟨nm, cap, power⟩).eer = round2 ((cap / power) * 3.412) ∧
    (mkChillerData .SI ⟨nm, cap, power⟩).kwPerTon = round2 (3.5 / (cap / power)) ∧
    power ≠ 0 ∧ cap / power ≠ 0 := by
  refine ⟨rfl, rfl, rfl, ne_of_gt hp, ne_of_gt (div_pos hc hp)⟩

/-- Witness for `C6_si_metrics` at the source's default inputs
(capacity 100, power 60). -/
theorem C6_si_metrics_witness :
    ((0 : ℚ) < 100 ∧ (0 : ℚ) < 60) ∧
    (mkChillerData .SI ⟨"Chiller 1", (100 : ℚ), 60⟩).cop = round2 ((100 : ℚ) / 60) ∧
    round2 ((100 : ℚ) / 60) = 167 / 100 :=
  ⟨⟨by decide, by decide⟩,
    (C6_si_metrics "Chiller 1" 100 60 (by decide) (by decide)).1, by decide⟩

/-- C7: a chiller gets the maintenance / load-redistribution advisory exactly
when its stored COP is strictly below 3.5, and the operating-efficiently
message otherwise; a chiller whose COP computes to 3.4 is warned while one
whose COP computes to 3.5 is not. -/
theorem C7_recommend :
    (∀ c : ChillerData ℚ,
        (recommend c = .maintenance ↔ c.cop < 3.5) ∧
        (recommend c = .efficient ↔ ¬ c.cop < 3.5)) ∧
    recommend (mkChillerData .SI ⟨"A", (340 : ℚ), 100⟩) = .maintenance ∧
    recommend (mkChillerData .SI ⟨"B", (350 : ℚ), 100⟩) = .efficient := by
  refine ⟨fun c => ?_, by decide, by decide⟩
  by_cases h : c.cop < 3.5 <;> simp [recommend, h]

/-- C8: cooling-tower range and approach are the stated differences, the
denominator `range + approach` telescopes to `inlet - wetBulb` and vanishes
exactly when the inlet equals the wet-bulb temperature, and away from that
degenerate case the effectiveness is the well-defined ratio
`range / (range + approach)`. -/
theorem C8_cooling_tower (inlet outlet wetBulb : ℚ) :
    ctRange inlet outlet = inlet - outlet ∧
    ctApproach outlet wetBulb = outlet - wetBulb ∧
    (ctRange inlet outlet + ctApproach outlet wetBulb = 0 ↔ inlet = wetBulb) ∧
    (inlet ≠ wetBulb →
      ctRange inlet outlet + ctApproach outlet wetBulb ≠ 0 ∧
      effectiveness inlet outlet wetBulb *
        (ctRange inlet outlet + ctApproach outlet wetBulb) = ctRange inlet outlet) := by
  have hsum : ctRange inlet outlet + ctApproach outlet wetBulb = inlet - wetBulb := by
    simp [ctRange, ctApproach]
  refine ⟨rfl, rfl, ?_, fun hne => ?_⟩
  · rw [hsum, sub_eq_zero]
  · have hden : ctRange inlet outlet + ctApproach outlet wetBulb ≠ 0 := by
      rw [hsum]
      exact sub_ne_zero_of_ne hne
    exact ⟨hden, div_mul_cancel₀ _ hden⟩

/-- Witness for `C8_cooling_tower` at the source's default inputs
(35 °C inlet, 30 °C outlet, 28 °C wet bulb). -/
theorem C8_cooling_tower_witness :
    (35 : ℚ) ≠ 28 ∧
    effectiveness (35 : ℚ) 30 28 * (ctRange (35 : ℚ) 30 + ctApproach (30 : ℚ) 28) =
      ctRange (35 : ℚ) 30 :=
  ⟨by decide, ((C8_cooling_tower 35 30 28).2.2.2 (by decide)).2⟩

lemma capSum_nonneg (cs : List (ChillerData ℚ)) (h : ∀ c ∈ cs, 0 < c.capacity) :
    0 ≤ (cs.map (fun c => c.capacity)).sum := by
  refine List.sum_nonneg ?_
  intro x hx
  rcases List.mem_map.mp hx with ⟨c, hc, rfl⟩
  exact le_of_lt (h c hc)

/-- C2: with nonnegative demand and positive capacities, the total assigned
load never exceeds the demand, meets it exactly when the fleet capacity
covers the demand, and equals the (insufficient) fleet capacity otherwise —
the shortfall is simply dropped, the allocator being a total function that
raises nothing. -/
theorem C2_alloc_sum (d : ℚ) (cs : List (ChillerData ℚ)) (hd : 0 ≤ d)
    (hpos : ∀ c ∈ cs, 0 < c.capacity) :
    ((allocate cs d).map (fun a => a.assignedKw)).sum ≤ d ∧
    (((allocate cs d).map (fun a => a.assignedKw)).sum = d ↔
      d ≤ (cs.map (fun c => c.capacity)).sum) ∧
    ((cs.map (fun c => c.capacity)).sum < d →
      ((allocate cs d).map (fun a => a.assignedKw)).sum =
        (cs.map (fun c => c.capacity)).sum) := by
  induction cs generalizing d with
  | nil =>
    simp only [allocate, List.map_nil, List.sum_nil]
    exact ⟨hd, ⟨fun h => h ▸ le_rfl, fun h => (le_antisymm h hd).symm⟩, fun _ => trivial⟩
  | cons c cs ih =>
    have hpos' : ∀ x ∈ cs, 0 < x.capacity := fun x hx => hpos x (List.mem_cons_of_mem c hx)
    have hT : 0 ≤ (cs.map (fun c => c.capacity)).sum := capSum_nonneg cs hpos'
    have hcap : 0 < c.capacity := hpos c (List.mem_cons_self c cs)
    rcases le_or_lt d 0 with hd0 | hd0
    · have hdeq : d = 0 := le_antisymm hd0 hd
      subst hdeq
      rw [allocate_nonpos _ _ le_rfl]
      simp only [List.map_nil, List.sum_nil, List.map_cons, List.sum_cons]
      exact ⟨le_rfl, iff_of_true trivial (by linarith), fun h => absurd h (by push_neg; linarith)⟩
    · by_cases hc : c.capacity ≤ d
      · rw [allocate, if_neg (not_le.mpr hd0), if_pos hc]
        simp only [List.map_cons, List.sum_cons]
        obtain ⟨ih1, ih2, ih3⟩ := ih (d - c.capacity) (by linarith) hpos'
        refine ⟨by linarith, ⟨fun h => ?_, fun h => ?_⟩, fun h => ?_⟩
        · have h1 : ((allocate cs (d - c.capacity)).map (fun a => a.assignedKw)).sum =
              d - c.capacity := by linarith
          have := ih2.mp h1
          linarith
        · have h1 : d - c.capacity ≤ (cs.map (fun c => c.capacity)).sum := by linarith
          have := ih2.mpr h1
          linarith
        · have h1 : (cs.map (fun c => c.capacity)).sum < d - c.capacity := by linarith
          have := ih3 h1
          linarith
      · have hdc : d < c.capacity := not_le.mp hc
        rw [allocate, if_neg (not_le.mpr hd0), if_neg hc, allocate_nonpos cs 0 le_rfl]
        simp only [List.map_cons, List.map_nil, List.sum_cons, List.sum_nil]
        exact ⟨by linarith, iff_of_true (by ring) (by linarith),
          fun h => absurd h (by push_neg; linarith)⟩

/-- Witness for `C2_alloc_sum`: two 100 kW chillers at demand 250 — the
fleet capacity 200 falls short, and exactly 200 is assigned. -/
theorem C2_alloc_sum_witness :
    ((0 : ℚ) ≤ 250 ∧
      ∀ c ∈ [mkChillerData .SI ⟨"Chiller 1", (100 : ℚ), 60⟩,
        mkChillerData .SI ⟨"Chiller 2", (100 : ℚ), 60⟩], 0 < c.capacity) ∧
    (([mkChillerData .SI ⟨"Chiller 1", (100 : ℚ), 60⟩,
        mkChillerData .SI ⟨"Chiller 2", (100 : ℚ), 60⟩].map (fun c => c.capacity)).sum < 250 →
      ((allocate [mkChillerData .SI ⟨"Chiller 1", (100 : ℚ), 60⟩,
          mkChillerData .SI ⟨"Chiller 2", (100 : ℚ), 60⟩] 250).map
            (fun a => a.assignedKw)).sum =
        ([mkChillerData .SI ⟨"Chiller 1", (100 : ℚ), 60⟩,
          mkChillerData .SI ⟨"Chiller 2", (100 : ℚ), 60⟩].map (fun c => c.capacity)).sum) :=
  ⟨⟨by decide, by decide⟩,
    (C2_alloc_sum 250 [mkChillerData .SI ⟨"Chiller 1", (100 : ℚ), 60⟩,
      mkChillerData .SI ⟨"Chiller 2", (100 : ℚ), 60⟩] (by decide) (by decide)).2.2⟩

/-- The lockstep pairing of an assignment list against a chiller list that
formalises C10: the assignments cover a prefix of the chillers in order,
each assigned amount is positive and within the paired chiller's capacity,
and every assignment followed by another one is a full-capacity assignment. -/
def prefixAlloc : List (Assignment ℚ) → List (ChillerData ℚ) → Prop
  | [], _ => True
  | _ :: _, [] => False
  | a :: as, c :: cs =>
    a.name = c.name ∧ 0 < a.assignedKw ∧ a.assignedKw ≤ c.capacity ∧
      (as ≠ [] → a.assignedKw = c.capacity) ∧ prefixAlloc as cs

/-- C10: with nonnegative demand and positive capacities, the allocation is a
prefix of the chiller list in input order; every assigned amount is strictly
positive and at most the paired chiller's capacity, and every assignment
except possibly the last assigns the full capacity. -/
theorem C10_alloc_invariant (d : ℚ) (cs : List (ChillerData ℚ)) (hd : 0 ≤ d)
    (hpos : ∀ c ∈ cs, 0 < c.capacity) : prefixAlloc (allocate cs d) cs := by
  induction cs generalizing d with
  | nil => exact trivial
  | cons c cs ih =>
    rcases le_or_lt d 0 with hd0 | hd0
    · rw [allocate_nonpos _ _ hd0]
      trivial
    · by_cases hc : c.capacity ≤ d
      · rw [allocate, if_neg (not_le.mpr hd0), if_pos hc]
        exact ⟨rfl, hpos c (List.mem_cons_self c cs), le_rfl, fun _ => rfl,
          ih (d - c.capacity) (by linarith)
            (fun x hx => hpos x (List.mem_cons_of_mem c hx))⟩
      · rw [allocate, if_neg (not_le.mpr hd0), if_neg hc, allocate_nonpos cs 0 le_rfl]
        exact ⟨rfl, hd0, le_of_lt (not_le.mp hc), fun h => absurd rfl h, trivial⟩

/-- Witness for `C10_alloc_invariant`: the two-chiller fleet at demand 150. -/
theorem C10_alloc_invariant_witness :
    ((0 : ℚ) ≤ 150 ∧
      ∀ c ∈ [mkChillerData .SI ⟨"Chiller 1", (100 : ℚ), 60⟩,
        mkChillerData .SI ⟨"Chiller 2", (100 : ℚ), 60⟩], 0 < c.capacity) ∧
    prefixAlloc
      (allocate [mkChillerData .SI ⟨"Chiller 1", (100 : ℚ), 60⟩,
        mkChillerData .SI ⟨"Chiller 2", (100 : ℚ), 60⟩] 150)
      [mkChillerData .SI ⟨"Chiller 1", (100 : ℚ), 60⟩,
        mkChillerData .SI ⟨"Chiller 2", (100 : ℚ), 60⟩] :=
  ⟨⟨by decide, by decide⟩,
    C10_alloc_invariant 150 [mkChillerData .SI ⟨"Chiller 1", (100 : ℚ), 60⟩,
      mkChillerData .SI ⟨"Chiller 2", (100 : ℚ), 60⟩] (by decide) (by decide)⟩

lemma allocate_mem_cop {α : Type} [LinearOrderedField α]
    (cs : List (ChillerData α)) (d : α) (a : Assignment α)
    (ha : a ∈ allocate cs d) : ∃ c ∈ cs, a.name = c.name ∧ a.cop = c.cop := by
  induction cs generalizing d with
  | nil => simp [allocate] at ha
  | cons c cs ih =>
    rw [allocate] at ha
    split_ifs at ha with h1 h2
    · simp at ha
    · rcases List.mem_cons.mp ha with rfl | ha'
      · exact ⟨c, List.mem_cons_self c cs, rfl, rfl⟩
      · obtain ⟨c', hc', hn⟩ := ih (d - c.capacity) ha'
        exact ⟨c', List.mem_cons_of_mem c hc', hn⟩
    · rcases List.mem_cons.mp ha with rfl | ha'
      · exact ⟨c, List.mem_cons_self c cs, rfl, rfl⟩
      · obtain ⟨c', hc', hn⟩ := ih 0 ha'
        exact ⟨c', List.mem_cons_of_mem c hc', hn⟩

/-- C4 counterexample: rounding is not confined to display.  A chiller with
capacity 100 and power 60 has full-precision COP `5/3`, yet the sequencing
assignment records the rounded value `1.67`; and a chiller with
full-precision COP `3.496 < 3.5` is reported as operating efficiently
because the stored COP rounds up to `3.5` before the threshold comparison. -/
theorem C4_counterexample :
    (allocate [mkChillerData .SI ⟨"Chiller 1", (100 : ℚ), 60⟩] 100).map (fun a => a.cop) =
      [167 / 100] ∧
    copRaw .SI (100 : ℚ) 60 = 5 / 3 ∧ ((167 : ℚ) / 100) ≠ 5 / 3 ∧
    recommend (mkChillerData .SI ⟨"Chiller 3", (3496 : ℚ) / 10, 100⟩) = .efficient ∧
    copRaw .SI ((3496 : ℚ) / 10) 100 < 3.5 := by
  exact ⟨by decide, by decide, by decide, by decide, by decide⟩

/-- C4 (amended): the derived metrics are rounded to two decimals once, when
the chiller record is built, and every internal consumer — the COP recorded
in sequencing assignments, the 3.5-threshold comparison, and the COP-vs-load
derating curve — uses that stored rounded value, not the full-precision
one. -/
theorem C4_rounding (u : UnitSystem) (i : ChillerInput ℚ) :
    (mkChillerData u i).cop = round2 (copRaw u i.cap i.power) ∧
    (mkChillerData u i).eer = round2 (eerRaw u i.cap i.power) ∧
    (mkChillerData u i).kwPerTon = round2 (kwPerTonRaw u i.cap i.power) ∧
    (∀ (cs : List (ChillerData ℚ)) (d : ℚ) (a : Assignment ℚ),
      a ∈ allocate cs d → ∃ c ∈ cs, a.name = c.name ∧ a.cop = c.cop) ∧
    (∀ c : ChillerData ℚ, recommend c = if c.cop < 3.5 then .maintenance else .efficient) ∧
    (∀ c : ChillerData ℚ,
      copCurve c = [25, 50, 75, 100].map (fun l => c.cop * (1 - 0.1 * (1 - l / 100)))) :=
  ⟨rfl, rfl, rfl, fun cs d a ha => allocate_mem_cop cs d a ha, fun _ => rfl, fun _ => rfl⟩

/-- Witness for `C4_rounding`: the assignment recorded for the default
chiller at demand 100 carries the chiller's stored (rounded) COP. -/
theorem C4_rounding_witness :
    (⟨"Chiller 1", (100 : ℚ), 167 / 100⟩ : Assignment ℚ) ∈
      allocate [mkChillerData .SI ⟨"Chiller 1", (100 : ℚ), 60⟩] 100 ∧
    ∃ c ∈ [mkChillerData .SI ⟨"Chiller 1", (100 : ℚ), 60⟩],
      (⟨"Chiller 1", (100 : ℚ), 167 / 100⟩ : Assignment ℚ).name = c.name ∧
      (⟨"Chiller 1", (100 : ℚ), 167 / 100⟩ : Assignment ℚ).cop = c.cop :=
  ⟨by decide,
    (C4_rounding .SI ⟨"Chiller 1", 100, 60⟩).2.2.2.1
      [mkChillerData .SI ⟨"Chiller 1", (100 : ℚ), 60⟩] 100
      ⟨"Chiller 1", (100 : ℚ), 167 / 100⟩ (by decide)⟩

/-- C5: for every base load and ambient temperature the simulator emits
exactly 24 points, the point of integer hour `h < 24` being the two-decimal
rounding of `baseLoad * (0.6 + 0.4 * exp(-((h-14)^2)/20)) *
(1 + (ambientTemp-30) * 0.02)`; at hour 14 with ambient 30 °C both factors
are 1, so for the integer base loads the slider offers the demand equals the
base load exactly. -/
theorem C5_load_profile (baseLoad ambientTemp : ℝ) :
    (profile baseLoad ambientTemp).length = 24 ∧
    profile baseLoad ambientTemp = (List.range 24).map (demandAt baseLoad ambientTemp) ∧
    (∀ h : ℕ, h < 24 → demandAt baseLoad ambientTemp h =
      round2 (baseLoad * (0.6 + 0.4 * Real.exp (-(((h : ℝ) - 14) ^ 2) / 20)) *
        (1 + (ambientTemp - 30) * 0.02))) ∧
    (∀ n : ℤ, demandAt (n : ℝ) 30 14 = (n : ℝ)) := by
  refine ⟨by simp [profile], rfl, fun h _ => rfl, fun n => ?_⟩
  have h1 : loadFactor 14 = 1 := by
    have : -((((14 : ℕ) : ℝ) - 14) ^ 2) / 20 = 0 := by norm_num
    rw [loadFactor, this, Real.exp_zero]
    norm_num
  have h2 : tempFactor 30 = 1 := by
    rw [tempFactor]
    norm_num
  rw [demandAt, h1, h2, mul_one, mul_one, round2,
    show ((n : ℝ) * 100) = ((n * 100 : ℤ) : ℝ) by push_cast; ring, round_intCast]
  push_cast
  ring

/-- Witness for `C5_load_profile` at base load 600, ambient 35 °C, hour 14. -/
theorem C5_load_profile_witness :
    (14 : ℕ) < 24 ∧
    demandAt 600 35 14 =
      round2 ((600 : ℝ) * (0.6 + 0.4 * Real.exp (-((((14 : ℕ) : ℝ) - 14) ^ 2) / 20)) *
        (1 + ((35 : ℝ) - 30) * 0.02)) ∧
    demandAt ((600 : ℤ) : ℝ) 30 14 = ((600 : ℤ) : ℝ) :=
  ⟨by decide, (C5_load_profile 600 35).2.2.1 14 (by decide),
    (C5_load_profile 600 35).2.2.2 600⟩

/-- C9: the full recomputation pass is a deterministic pure function of the
unit system, the chiller inputs, the base load and the ambient temperature:
two passes over identical inputs produce identical allocation-record
sequences, there being no hidden state in the embedding. -/
theorem C9_deterministic (u₁ u₂ : UnitSystem) (ins₁ ins₂ : List (ChillerInput ℝ))
    (b₁ b₂ t₁ t₂ : ℝ) (hu : u₁ = u₂) (hins : ins₁ = ins₂) (hb : b₁ = b₂) (ht : t₁ = t₂) :
    fullPass u₁ ins₁ b₁ t₁ = fullPass u₂ ins₂ b₂ t₂ := by
  subst hu hins hb ht
  rfl

/-- Witness for `C9_deterministic`: two runs on the source's default inputs. -/
theorem C9_deterministic_witness :
    fullPass .SI [⟨"Chiller 1", (100 : ℝ), 60⟩] 600 35 =
      fullPass .SI [⟨"Chiller 1", (100 : ℝ), 60⟩] 600 35 :=
  C9_deterministic .SI .SI [⟨"Chiller 1", (100 : ℝ), 60⟩] [⟨"Chiller 1", (100 : ℝ), 60⟩]
    600 600 35 35 rfl rfl rfl rfl

/-- Witness for `C7_recommend`: the advisory criterion instantiated at the
COP-3.4 chiller. -/
theorem C7_recommend_witness :
    recommend (mkChillerData .SI ⟨"A", (340 : ℚ), 100⟩) = .maintenance ↔
      (mkChillerData .SI ⟨"A", (340 : ℚ), 100⟩ : ChillerData ℚ).cop < 3.5 :=
  (C7_recommend.1 (mkChillerData .SI ⟨"A", (340 : ℚ), 100⟩)).1
